import Mathlib

/-!
Verification of the place_api notification server.

The model below is a shallow embedding of the two source files:
`Part000` embeds the active server (src/unnamed/part_000) and `IndexJs`
embeds the earlier variant (src/index.js).  JavaScript strings that may
be `undefined` are `Option String` (with `none` for an absent key);
JavaScript truthiness on strings (`x || ''`, `if (x)`) is emptiness of
the defaulted string.  External effects (Firestore writes, the push
send) are made explicit: the store is a lookup function, the push
attempt's outcome is a parameter, and writes are returned as a list of
`StoreEffect`s.
-/

/-- JavaScript `x || ''` on a possibly-undefined string:
`undefined`, `null` and `''` all give `''`. -/
def orEmpty (o : Option String) : String :=
  match o with
  | none => ""
  | some s => s

/-- JavaScript spread override `{ base, ...data }` on one key: the raw
value wins when the key is present in `data`, else the base value. -/
def ovr (o : Option String) (base : String) : String :=
  match o with
  | none => base
  | some v => v

/-- JavaScript `x || d` on a possibly-undefined string with a non-empty
default `d`: `undefined`, `null` and `''` all give `d`. -/
def orDefault (o : Option String) (d : String) : String :=
  if orEmpty o = "" then d else orEmpty o

/-- `p` is a prefix of the character list `s` (JavaScript
`String.prototype.startsWith`, spelled out so it evaluates). -/
def charsPrefix : List Char → List Char → Bool
  | [], _ => true
  | _ :: _, [] => false
  | a :: as, b :: bs => a == b && charsPrefix as bs

/-- A `Users/{id}` document: the fields the server reads. -/
structure UserRec where
  fcmToken : Option String := none
  name : Option String := none
  avatar : Option String := none
  followers : List String := []
deriving DecidableEq, Repr, Inhabited

/-- The document store restricted to what dispatch reads: `Users` by id. -/
def Store := String → Option UserRec

/-- The `data` argument of `sendAndLogNotification` (part_000): an open
JavaScript object; we model the keys the server itself reads or writes.
`none` means the key is absent. -/
structure NotifData where
  senderId : Option String := none
  senderName : Option String := none
  senderAvatar : Option String := none
  targetId : Option String := none
  targetType : Option String := none
  postId : Option String := none
  placeId : Option String := none
  reviewId : Option String := none
  commentId : Option String := none
deriving DecidableEq, Repr, Inhabited

/-- The six identifier fields after defaulting, all plain strings. -/
structure RawIds where
  targetId : String
  targetType : String
  postId : String
  placeId : String
  reviewId : String
  commentId : String
deriving DecidableEq, Repr, Inhabited

/-- Identifier reconciliation, lines 71-86 of part_000.
Forward-fill: when `targetType` names a kind whose typed id is empty,
copy `targetId` into it.  Back-fill: when `targetId` is empty, the code
back-fills from `postId` first, else from `placeId`; there is no
back-fill from `reviewId` or `commentId` in the source. -/
def reconcile (x : RawIds) : RawIds :=
  let p := if x.targetType = "post" ∧ x.postId = "" then x.targetId else x.postId
  let pl := if x.targetType = "place" ∧ x.placeId = "" then x.targetId else x.placeId
  let r := if x.targetType = "review" ∧ x.reviewId = "" then x.targetId else x.reviewId
  let c := if x.targetType = "comment" ∧ x.commentId = "" then x.targetId else x.commentId
  if p ≠ "" ∧ x.targetId = "" then
    ⟨p, "post", p, pl, r, c⟩
  else if pl ≠ "" ∧ x.targetId = "" then
    ⟨pl, "place", p, pl, r, c⟩
  else
    ⟨x.targetId, x.targetType, p, pl, r, c⟩

/-- Defaulting of the raw `data` keys to empty strings (lines 71-76)
followed by reconciliation. -/
def reconcileData (d : NotifData) : RawIds :=
  reconcile
    { targetId := orEmpty d.targetId
      targetType := orEmpty d.targetType
      postId := orEmpty d.postId
      placeId := orEmpty d.placeId
      reviewId := orEmpty d.reviewId
      commentId := orEmpty d.commentId }

example : reconcileData { postId := some "p1" } =
    ⟨"p1", "post", "p1", "", "", ""⟩ := by decide

example : (reconcileData { reviewId := some "r1" }).targetId = "" := by decide

/-- Outcome of one push-delivery attempt, a parameter of the model:
the FCM `send` either returns a message id or raises, and the raised
error may or may not be the distinguishable
`messaging/registration-token-not-registered` kind. -/
inductive PushOutcome where
  | success (msgId : String)
  | failure (tokenNotRegistered : Bool)
deriving DecidableEq, Repr, Inhabited

/-- The persisted notification record of part_000 (lines 158-178): every
identifier field is written explicitly, so it is always a present string.
`timestamp` (server-assigned) is omitted; `data` echoes the input object
(`removeUndefined` is the identity on our representation, where absent
keys are already `none`). -/
structure NotificationDoc where
  id : String
  recipientId : String
  title : String
  body : String
  type : String
  senderId : String
  senderName : String
  senderAvatar : String
  targetId : String
  targetType : String
  postId : String
  placeId : String
  reviewId : String
  commentId : String
  isRead : Bool
  delivered : Bool
  fcmMessageId : Option String
  data : NotifData
deriving DecidableEq, Repr, Inhabited

/-- The persisted notification record of index.js (lines 83-95): raw
destructured fields, which may be `undefined`. -/
structure IndexNotificationDoc where
  type : Option String
  title : Option String
  body : Option String
  senderId : String
  senderName : Option String
  senderAvatar : Option String
  targetId : Option String
  targetType : Option String
  isRead : Bool
  extraData : NotifData
deriving DecidableEq, Repr, Inhabited

/-- Firestore writes the dispatch can perform, in order. -/
inductive StoreEffect where
  /-- `Users/{recipientId}/Notifications/{id}.set(doc)` (part_000). -/
  | writeNotification (recipientId : String) (doc : NotificationDoc)
  /-- `Users/{toUserId}/Notifications.add(doc)` (index.js). -/
  | addNotification (recipientId : String) (doc : IndexNotificationDoc)
  /-- `Users/{userId}.update({fcmToken: FieldValue.delete()})` (index.js). -/
  | clearFcmToken (userId : String)
deriving DecidableEq, Repr, Inhabited

/-- Is this effect the clearing of a stored push token? -/
def StoreEffect.isClearToken : StoreEffect → Bool
  | .clearFcmToken _ => true
  | _ => false

/-- The notification records written into a list of effects (part_000 form). -/
def writtenDocs (es : List StoreEffect) : List NotificationDoc :=
  es.filterMap fun e =>
    match e with
    | .writeNotification _ d => some d
    | _ => none

namespace Part000

/-- `https://ui-avatars.com/api/?name=` initials URL of line 94: the
first character of `senderName || 'U'`, uppercased (`charAt(0)` of the
empty string is itself empty).  `encodeURIComponent` is the identity on
the single initial character for the alphanumeric names exercised here,
so it is not modelled further. -/
def avatarFallback (senderName : String) : String :=
  let initials :=
    match (if senderName = "" then "U" else senderName).data with
    | [] => ""
    | ch :: _ => String.mk [ch.toUpper]
  "https://ui-avatars.com/api/?name=" ++ initials ++
    "&background=1C59A4&color=fff&size=200&bold=true"

/-- Avatar logic of lines 89-96: an `http` URL is kept, an empty avatar
is replaced by the generated initials URL, anything else is kept as-is. -/
def resolveAvatar (senderAvatar senderName : String) : String :=
  if senderAvatar ≠ "" ∧ charsPrefix "http".data senderAvatar.data then senderAvatar
  else if senderAvatar = "" then avatarFallback senderName
  else senderAvatar

/-- The FCM `message.data` map of lines 111-127, restricted to the keys
the server itself writes.  The explicitly listed keys are spread over by
`...data` (caller keys win), then `convertToStringValues` is applied —
the identity here, since every modelled value is already a string.  The
constant keys `click_action` and `appColor` carry no information and are
omitted. -/
structure PushPayload where
  type : String
  recipientId : String
  notificationId : String
  senderAvatar : String
  senderName : String
  senderId : String
  targetId : String
  targetType : String
  postId : String
  placeId : String
  reviewId : String
  commentId : String
deriving DecidableEq, Repr, Inhabited

/-- Result of one `sendAndLogNotification` call: the returned boolean,
the Firestore writes performed, and the FCM payload sent (if a send was
attempted). -/
structure SendResult where
  ok : Bool
  effects : List StoreEffect
  sent : Option PushPayload
deriving DecidableEq, Repr, Inhabited

/-- `sendAndLogNotification` of part_000 (lines 58-186).  `store` is the
`Users` collection, `push` the outcome the FCM transport would produce
for this message, `notificationId` the generated id (timestamp+random in
the source, opaque here).  If the recipient does not exist the call
returns `false` having performed no write (lines 61-64).  A send is
attempted only when the recipient has a truthy `fcmToken` (line 103); a
transport failure is caught and only logged (lines 152-154).  The
notification record is then written unconditionally and the call returns
`true` (lines 158-181). -/
def sendAndLogNotification (store : Store) (push : PushOutcome)
    (notificationId : String) (recipientId title body type : String)
    (data : NotifData) : SendResult :=
  match store recipientId with
  | none => ⟨false, [], none⟩
  | some user =>
    let fcmToken := orEmpty user.fcmToken
    let senderName := orEmpty data.senderName
    let senderAvatar := resolveAvatar (orEmpty data.senderAvatar) senderName
    let r := reconcileData data
    let attempted : Bool := fcmToken != ""
    let sent : Option PushPayload :=
      if attempted then
        some
          { type := type
            recipientId := recipientId
            notificationId := notificationId
            senderAvatar := ovr data.senderAvatar senderAvatar
            senderName := ovr data.senderName senderName
            senderId := orEmpty data.senderId
            targetId := ovr data.targetId r.targetId
            targetType := ovr data.targetType r.targetType
            postId := ovr data.postId r.postId
            placeId := ovr data.placeId r.placeId
            reviewId := ovr data.reviewId r.reviewId
            commentId := ovr data.commentId r.commentId }
      else none
    let delivered : Bool :=
      attempted && match push with | .success _ => true | .failure _ => false
    let fcmMessageId : Option String :=
      if attempted then
        match push with
        | .success m => some m
        | .failure _ => none
      else none
    let doc : NotificationDoc :=
      { id := notificationId
        recipientId := recipientId
        title := title
        body := body
        type := type
        senderId := orEmpty data.senderId
        senderName := senderName
        senderAvatar := senderAvatar
        targetId := r.targetId
        targetType := r.targetType
        postId := r.postId
        placeId := r.placeId
        reviewId := r.reviewId
        commentId := r.commentId
        isRead := false
        delivered := delivered
        fcmMessageId := fcmMessageId
        data := data }
    ⟨true, [.writeNotification recipientId doc], sent⟩

end Part000

namespace IndexJs

/-- The single `notificationData` argument of the index.js variant of
`sendAndLogNotification` (lines 25-36): destructured raw fields, which
may each be absent, plus the `extraData` object (defaulted to `{}`). -/
structure NotificationData where
  toUserId : Option String := none
  type : Option String := none
  title : Option String := none
  body : Option String := none
  senderName : Option String := none
  senderAvatar : Option String := none
  targetId : Option String := none
  targetType : Option String := none
  extraData : NotifData := {}
deriving DecidableEq, Repr, Inhabited

/-- `sendAndLogNotification` of index.js (lines 25-119).  Without a
truthy `fcmToken` the call returns `false` and writes nothing (lines
44-47); an absent `toUserId` makes the `doc()` call throw, landing in
the same catch as a send failure.  On send success the record is added
and the call returns `true` (lines 79-104).  On send failure the catch
at lines 106-118 returns `false`, first deleting the stored token when
the error is `messaging/registration-token-not-registered`; no
notification record is written on this path. -/
def sendAndLogNotification (store : Store) (push : PushOutcome)
    (nd : NotificationData) : Bool × List StoreEffect :=
  match nd.toUserId with
  | none => (false, [])
  | some toUserId =>
    let fcmToken := orEmpty ((store toUserId).bind UserRec.fcmToken)
    if fcmToken = "" then (false, [])
    else
      match push with
      | .success _ =>
        let doc : IndexNotificationDoc :=
          { type := nd.type
            title := nd.title
            body := nd.body
            senderId := orEmpty nd.extraData.senderId
            senderName := nd.senderName
            senderAvatar := nd.senderAvatar
            targetId := nd.targetId
            targetType := nd.targetType
            isRead := false
            extraData := nd.extraData }
        (true, [.addNotification toUserId doc])
      | .failure tokenNotRegistered =>
        if tokenNotRegistered then (false, [.clearFcmToken toUserId])
        else (false, [])

end IndexJs

/-- A `Reviews/{id}` document: the fields the listeners read. -/
structure Review where
  userId : String := ""
  placeOwnerId : String := ""
  placeId : String := ""
  userName : String := ""
  userAvatar : String := ""
  likes : List String := []
deriving DecidableEq, Repr, Inhabited

/-- A `Posts/{id}` document: the fields the listeners read. -/
structure Post where
  userId : String := ""
  likedBy : List String := []
deriving DecidableEq, Repr, Inhabited

/-- A `Comments` document (top-level or under a post). -/
structure Comment where
  userId : String := ""
  userName : String := ""
  userAvatar : String := ""
  parentType : String := ""
  parentId : String := ""
  parentCommentId : String := ""
  postId : String := ""
  placeId : String := ""
deriving DecidableEq, Repr, Inhabited

namespace Part000

/-- A notification intent: the arguments a listener passes to
`sendAndLogNotification` when its rule fires. -/
structure Intent where
  recipientId : String
  title : String
  body : String
  type : String
  data : NotifData
deriving DecidableEq, Repr, Inhabited

/-- `setupNewReviewListener` rule (lines 312-337): an added review
notifies the place owner, unless the owner id is falsy or the reviewer
is the owner. -/
def newReviewRule (reviewId : String) (review : Review) : Option Intent :=
  if review.placeOwnerId ≠ "" ∧ review.userId ≠ review.placeOwnerId then
    some
      { recipientId := review.placeOwnerId
        title := "New Review"
        body := review.userName ++ " reviewed your place"
        type := "new_review"
        data :=
          { senderId := some review.userId
            senderName := some review.userName
            senderAvatar := some review.userAvatar
            targetId := some review.placeId
            targetType := some "place"
            placeId := some review.placeId
            reviewId := some reviewId } }
  else none

/-- `setupNewCommentListener`, case A (lines 349-372): a comment added
under the top-level `Comments/` path with `parentType === 'review'`
notifies the review's author; `review` is the fetched
`Reviews/{comment.parentId}` document (`none` when it does not exist). -/
def newCommentOnReviewRule (commentId : String) (comment : Comment)
    (review : Option Review) : Option Intent :=
  if comment.parentType = "review" then
    match review with
    | none => none
    | some rv =>
      if comment.userId ≠ rv.userId then
        some
          { recipientId := rv.userId
            title := "New Comment"
            body := comment.userName ++ " commented on your review"
            type := "new_comment"
            data :=
              { senderId := some comment.userId
                senderName := some comment.userName
                senderAvatar := some comment.userAvatar
                targetId := some comment.parentId
                targetType := some "review"
                placeId := some rv.placeId
                reviewId := some comment.parentId
                commentId := some commentId } }
      else none
  else none

/-- `setupNewCommentListener`, case B (lines 374-395): a comment added
under `Posts/{postId}/Comments` notifies the post's author; `post` is
the fetched `Posts/{postId}` document. -/
def newCommentOnPostRule (commentId postId : String) (comment : Comment)
    (post : Option Post) : Option Intent :=
  match post with
  | none => none
  | some p =>
    if comment.userId ≠ p.userId then
      some
        { recipientId := p.userId
          title := "New Comment"
          body := comment.userName ++ " commented on your post"
          type := "new_comment"
          data :=
            { senderId := some comment.userId
              senderName := some comment.userName
              senderAvatar := some comment.userAvatar
              targetId := some postId
              targetType := some "post"
              postId := some postId
              commentId := some commentId } }
    else none

/-- `setupNewCommentListener`, reply handling (lines 397-422): a comment
with a truthy `parentCommentId` notifies the parent comment's author;
`parent` is the first result of the collection-group query on the `id`
field (`none` when the query is empty).  The extra `parentCommentId`
payload key is not among the keys the send path reads and is omitted. -/
def replyRule (commentId : String) (comment : Comment)
    (parent : Option Comment) : Option Intent :=
  if comment.parentCommentId ≠ "" then
    match parent with
    | none => none
    | some par =>
      if comment.userId ≠ par.userId then
        some
          { recipientId := par.userId
            title := "New Reply"
            body := comment.userName ++ " replied to you"
            type := "comment_replied"
            data :=
              { senderId := some comment.userId
                senderName := some comment.userName
                senderAvatar := some comment.userAvatar
                targetId := some comment.parentCommentId
                targetType := some "comment"
                postId := some comment.postId
                placeId := some par.placeId
                commentId := some commentId } }
      else none
  else none

/-- `setupLikeListeners`, Reviews branch (lines 431-462): a modified
review whose `likes` array grew notifies the review's author about the
first member of the new array that the old array does not contain.
`store` supplies the liker's `Users` record for the display fields. -/
def reviewLikedRule (store : Store) (reviewId : String) (review : Review)
    (oldLikes : List String) : Option Intent :=
  let newLikes := review.likes
  if oldLikes.length < newLikes.length then
    match newLikes.find? (fun l => !(oldLikes.contains l)) with
    | none => none
    | some likerId =>
      if likerId ≠ "" ∧ likerId ≠ review.userId then
        let liker := store likerId
        some
          { recipientId := review.userId
            title := "New Like"
            body := orDefault (liker.bind UserRec.name) "Someone" ++
              " liked your review"
            type := "review_liked"
            data :=
              { senderId := some likerId
                senderName := liker.bind UserRec.name
                senderAvatar := liker.bind UserRec.avatar
                targetId := some reviewId
                targetType := some "review"
                placeId := some review.placeId
                reviewId := some reviewId } }
      else none
  else none

/-- `setupLikeListeners`, Posts branch (lines 465-495): same growth
rule over the post's `likedBy` array. -/
def postLikedRule (store : Store) (postId : String) (post : Post)
    (oldLikes : List String) : Option Intent :=
  let newLikes := post.likedBy
  if oldLikes.length < newLikes.length then
    match newLikes.find? (fun l => !(oldLikes.contains l)) with
    | none => none
    | some likerId =>
      if likerId ≠ "" ∧ likerId ≠ post.userId then
        let liker := store likerId
        some
          { recipientId := post.userId
            title := "New Like"
            body := orDefault (liker.bind UserRec.name) "Someone" ++
              " liked your post"
            type := "post_liked"
            data :=
              { senderId := some likerId
                senderName := liker.bind UserRec.name
                senderAvatar := liker.bind UserRec.avatar
                targetId := some postId
                targetType := some "post"
                postId := some postId } }
      else none
  else none

/-- `setupNewFollowerListener` step (lines 501-544): a modified user
document whose `followers` array is longer than the cached count
notifies that user about the LAST element of the new array (line 516 —
the code never checks that element against the previous membership,
because only a count is cached).  Returns the produced intent and the
new cached count (line 538, updated on every modification). -/
def newFollowerStep (store : Store) (userId : String) (newUserData : UserRec)
    (cachedCount : Nat) : Option Intent × Nat :=
  let newFollowers := newUserData.followers
  let intent : Option Intent :=
    if cachedCount < newFollowers.length then
      match newFollowers.getLast? with
      | none => none
      | some newFollowerId =>
        if newFollowerId ≠ "" ∧ newFollowerId ≠ userId then
          let followerData := store newFollowerId
          some
            { recipientId := userId
              title := "New Follower"
              body := orDefault (followerData.bind UserRec.name) "Someone" ++
                " started following you"
              type := "new_follower"
              data :=
                { senderId := some newFollowerId
                  senderName :=
                    some (orDefault (followerData.bind UserRec.name) "User")
                  senderAvatar :=
                    some (orEmpty (followerData.bind UserRec.avatar))
                  targetId := some newFollowerId
                  targetType := some "user" } }
        else none
    else none
  (intent, newFollowers.length)

end Part000

/-- JavaScript spread merge of two objects, `{ ...base, ...extra }`,
keywise: a key present in `extra` overrides the one in `base`. -/
def mergeData (base extra : NotifData) : NotifData :=
  { senderId := extra.senderId <|> base.senderId
    senderName := extra.senderName <|> base.senderName
    senderAvatar := extra.senderAvatar <|> base.senderAvatar
    targetId := extra.targetId <|> base.targetId
    targetType := extra.targetType <|> base.targetType
    postId := extra.postId <|> base.postId
    placeId := extra.placeId <|> base.placeId
    reviewId := extra.reviewId <|> base.reviewId
    commentId := extra.commentId <|> base.commentId }

namespace Part000

/-- The body of a `POST /send-notification` request (line 226); every
field may be absent, `extraData` defaults to `{}`. -/
structure SendNotificationRequest where
  toUserId : Option String := none
  type : Option String := none
  title : Option String := none
  body : Option String := none
  senderName : Option String := none
  senderAvatar : Option String := none
  targetId : Option String := none
  targetType : Option String := none
  extraData : NotifData := {}
deriving DecidableEq, Repr, Inhabited

/-- The `data` object `/send-notification` passes to
`sendAndLogNotification` (lines 237-243): the four display/target fields
defaulted to empty strings — so `targetId` and `targetType` are always
PRESENT keys here — spread over by `extraData`. -/
def sendNotificationData (req : SendNotificationRequest) : NotifData :=
  mergeData
    { senderName := some (orEmpty req.senderName)
      senderAvatar := some (orEmpty req.senderAvatar)
      targetId := some (orEmpty req.targetId)
      targetType := some (orEmpty req.targetType) }
    req.extraData

/-- The `POST /send-notification` handler (lines 224-263), as the HTTP
status and the `success` flag of the JSON body: 400 on a falsy required
field, else 200/500 by the dispatch result. -/
def sendNotificationHandler (store : Store) (push : PushOutcome)
    (notificationId : String) (req : SendNotificationRequest) : Nat × Bool :=
  if orEmpty req.toUserId = "" ∨ orEmpty req.type = "" ∨
      orEmpty req.title = "" ∨ orEmpty req.body = "" then
    (400, false)
  else
    let r := sendAndLogNotification store push notificationId
      (orEmpty req.toUserId) (orEmpty req.title) (orEmpty req.body)
      (orEmpty req.type) (sendNotificationData req)
    if r.ok then (200, true) else (500, false)

/-- `sendAndLogNotification` invoked with a possibly-undefined
`recipientId`: with `undefined` the `db.collection('Users').doc(...)`
call at line 60 throws inside the function's own try, so the catch at
lines 182-185 returns `false` with no write performed. -/
def sendAndLogNotificationOpt (store : Store) (push : PushOutcome)
    (notificationId : String) (recipientId : Option String)
    (title body type : String) (data : NotifData) : SendResult :=
  match recipientId with
  | none => ⟨false, [], none⟩
  | some rid => sendAndLogNotification store push notificationId rid title body type data

/-- The body of a `POST /test-notification` request (line 285). -/
structure TestNotificationRequest where
  userId : Option String := none
  type : Option String := none
  title : Option String := none
  body : Option String := none
deriving DecidableEq, Repr, Inhabited

/-- The `POST /test-notification` handler (lines 283-305), as the HTTP
status and the `success` flag of the JSON body.  There is no field
validation: the destructuring defaults fill `type`/`title`/`body` when
absent, the dispatch is called with whatever `userId` is, and
`res.json({ success, ... })` answers with status 200 whether or not the
dispatch succeeded (the 500 catch is unreachable because the dispatch
catches its own errors). -/
def testNotificationHandler (store : Store) (push : PushOutcome)
    (notificationId : String) (req : TestNotificationRequest) : Nat × Bool :=
  let r := sendAndLogNotificationOpt store push notificationId req.userId
    (req.title.getD "Test") (req.body.getD "Test notification")
    (req.type.getD "test")
    { senderId := some "test_sender"
      senderName := some "Test User"
      targetId := some "test_target"
      targetType := some "test" }
  (200, r.ok)

end Part000

/-! ## Fixtures for concrete witnesses and counterexamples -/

/-- A recipient record carrying a registered push token. -/
def tokUser : UserRec := { fcmToken := some "tok" }

/-- A store holding exactly the user `u1` (with a push token). -/
def oneUserStore : Store := fun id => if id = "u1" then some tokUser else none

/-- The empty store: no user exists. -/
def emptyStore : Store := fun _ => none

/-! ## Claims -/

/-- C1: whenever the recipient's user record exists in the store, the
call returns success and writes one NotificationRecord to that
recipient's notification log, for every push outcome (success, failure,
or skipped for lack of a token, all covered by quantifying over `push`
and the recipient's record). -/
theorem c1_dispatch_always_persists (store : Store) (push : PushOutcome)
    (nid rid title body ty : String) (data : NotifData) (u : UserRec)
    (h : store rid = some u) :
    (Part000.sendAndLogNotification store push nid rid title body ty data).ok = true ∧
    ∃ d, (Part000.sendAndLogNotification store push nid rid title body ty data).effects =
      [StoreEffect.writeNotification rid d] := by
  simp only [Part000.sendAndLogNotification, h]
  exact ⟨trivial, _, rfl⟩

/-- C1 witness: a concrete recipient that exists, with the push attempt
failing, still yields success and a logged record. -/
theorem c1_witness :
    (Part000.sendAndLogNotification oneUserStore (.failure false) "n1" "u1"
      "T" "B" "test" {}).ok = true ∧
    ∃ d, (Part000.sendAndLogNotification oneUserStore (.failure false) "n1" "u1"
      "T" "B" "test" {}).effects = [StoreEffect.writeNotification "u1" d] :=
  c1_dispatch_always_persists oneUserStore (.failure false) "n1" "u1"
    "T" "B" "test" {} tokUser (by decide)

/-- C5: when the recipient's record does not exist the call aborts at
lines 61-64: it returns `false`, performs no store write, and sends no
push payload. -/
theorem c5_no_write_for_missing_recipient (store : Store) (push : PushOutcome)
    (nid rid title body ty : String) (data : NotifData)
    (h : store rid = none) :
    Part000.sendAndLogNotification store push nid rid title body ty data =
      ⟨false, [], none⟩ := by
  simp only [Part000.sendAndLogNotification, h]

/-- C5 witness: dispatch against the empty store. -/
theorem c5_witness :
    Part000.sendAndLogNotification emptyStore (.success "m") "n1" "u9"
      "T" "B" "test" {} = ⟨false, [], none⟩ :=
  c5_no_write_for_missing_recipient emptyStore (.success "m") "n1" "u9"
    "T" "B" "test" {} rfl

/-- C10: a `POST /test-notification` request without `userId` is not
validated: the dispatch is invoked with the undefined recipient, its
internal catch turns the thrown lookup error into `false`, and the
endpoint still answers HTTP 200 with `success:false` — never 400 or
500. -/
theorem c10_test_notification_no_validation (store : Store)
    (push : PushOutcome) (nid : String) (req : Part000.TestNotificationRequest)
    (h : req.userId = none) :
    Part000.testNotificationHandler store push nid req = (200, false) := by
  simp only [Part000.testNotificationHandler, h, Part000.sendAndLogNotificationOpt]

/-- C10 witness: the empty request body. -/
theorem c10_witness :
    Part000.testNotificationHandler oneUserStore (.success "m") "n1" {} =
      (200, false) :=
  c10_test_notification_no_validation oneUserStore (.success "m") "n1" {} rfl

/-- C3 counterexample: with `targetId` empty and only `reviewId` (resp.
only `commentId`) non-empty, the code does NOT back-fill — lines 85-86
only handle `postId` and `placeId` — so `targetId` stays empty, against
the claim that it is set to a non-empty typed id. -/
theorem c3_counterexample :
    (reconcile ⟨"", "", "", "", "rv1", ""⟩).targetId = "" ∧
    (reconcile ⟨"", "", "", "", "rv1", ""⟩).targetType = "" ∧
    (reconcile ⟨"", "", "", "", "", "cm1"⟩).targetId = "" ∧
    (reconcile ⟨"", "", "", "", "", "cm1"⟩).targetType = "" := by decide

/-- C3 amended: when `targetId` is empty, back-fill happens only from
the typed ids the code checks: `postId` first, else `placeId`; when both
are empty the result's `targetId` remains empty and `targetType` is left
as given, even if `reviewId` or `commentId` is non-empty. -/
theorem c3_backfill_post_place_only (x : RawIds) (h : x.targetId = "") :
    (x.postId ≠ "" →
      (reconcile x).targetId = x.postId ∧ (reconcile x).targetType = "post") ∧
    (x.postId = "" → x.placeId ≠ "" →
      (reconcile x).targetId = x.placeId ∧ (reconcile x).targetType = "place") ∧
    (x.postId = "" → x.placeId = "" →
      (reconcile x).targetId = "" ∧ (reconcile x).targetType = x.targetType) := by
  obtain ⟨t, ty, p, pl, r, c⟩ := x
  simp only [reconcile] at *
  subst h
  refine ⟨fun hp => ?_, fun hp hpl => ?_, fun hp hpl => ?_⟩ <;>
    by_cases h1 : ty = "post" <;> by_cases h2 : ty = "place" <;>
      simp_all

/-- C3 amended witness: concrete back-fill from `postId`, from
`placeId`, and the no-back-fill case with only `reviewId` set. -/
theorem c3_witness :
    ((reconcile ⟨"", "", "p1", "", "", ""⟩).targetId = "p1" ∧
      (reconcile ⟨"", "", "p1", "", "", ""⟩).targetType = "post") ∧
    ((reconcile ⟨"", "", "", "pl1", "", ""⟩).targetId = "pl1" ∧
      (reconcile ⟨"", "", "", "pl1", "", ""⟩).targetType = "place") ∧
    ((reconcile ⟨"", "x", "", "", "rv1", ""⟩).targetId = "" ∧
      (reconcile ⟨"", "x", "", "", "rv1", ""⟩).targetType = "x") :=
  ⟨(c3_backfill_post_place_only ⟨"", "", "p1", "", "", ""⟩ rfl).1 (by decide),
   (c3_backfill_post_place_only ⟨"", "", "", "pl1", "", ""⟩ rfl).2.1 rfl (by decide),
   (c3_backfill_post_place_only ⟨"", "x", "", "", "rv1", ""⟩ rfl).2.2 rfl rfl⟩

/-- Count of non-empty type-specific ids in a persisted record. -/
def typedIdCount (d : NotificationDoc) : Nat :=
  [d.postId, d.placeId, d.reviewId, d.commentId].countP (fun s => s != "")

/-- The comment that triggers the C2 counterexample scenario. -/
def cComment : Comment :=
  { userId := "u1", userName := "N", parentType := "review", parentId := "r1" }

/-- The parent review of `cComment`, authored by `u2` at place `pl1`. -/
def cReview : Review := { userId := "u2", placeId := "pl1" }

/-- A store holding the recipient `u2` with a push token. -/
def cStore : Store := fun id => if id = "u2" then some tokUser else none

/-- The dispatch of the intent produced by the new-comment rule for
`cComment`. -/
def cDispatch : Part000.SendResult :=
  match Part000.newCommentOnReviewRule "c1" cComment (some cReview) with
  | some i =>
    Part000.sendAndLogNotification cStore (.success "m") "n1"
      i.recipientId i.title i.body i.type i.data
  | none => ⟨false, [], none⟩

/-- The C2 sent-form scenario: a `data` object carrying
`targetId:'p1'`, `targetType:'post'` and a PRESENT but empty `postId`
key, as produced by `POST /send-notification` with
`targetId:'p1', targetType:'post', extraData:{postId:''}`. -/
def c2SentData : NotifData :=
  { targetId := some "p1", targetType := some "post", postId := some "" }

/-- C2 counterexample, both halves of the claimed "persisted or sent"
invariant.  Persisted: the intent the new-comment listener actually
produces (lines 350-372) carries `placeId`, `reviewId` AND `commentId`,
so the persisted record has THREE non-empty type-specific ids, not
exactly one.  Sent: for `c2SentData` the `...data` spread (line 126)
puts the raw empty `postId` back over the forward-filled value, so the
sent payload has `targetType = "post"` and a non-empty `targetId` yet an
EMPTY `postId` (the reconciled value is `"p1"`) — even the weaker
"typed id named by targetType is non-empty" consistency fails for the
sent form. -/
theorem c2_counterexample :
    ((Part000.newCommentOnReviewRule "c1" cComment (some cReview)).isSome = true ∧
      (writtenDocs cDispatch.effects).map typedIdCount = [3] ∧ 3 ≠ 1) ∧
    (((Part000.sendAndLogNotification oneUserStore (.success "m") "n1" "u1"
        "T" "B" "like" c2SentData).sent.map
        (fun p => (p.targetType, p.targetId, p.postId))) =
      some ("post", "p1", "") ∧
      (reconcileData c2SentData).postId = "p1") := by decide

/-- The typed id named by the reconciled `targetType` is non-empty
whenever the reconciled `targetId` is (shared helper for C2). -/
theorem reconcile_type_consistent (x : RawIds) :
    ((reconcile x).targetType = "post" → (reconcile x).targetId ≠ "" →
      (reconcile x).postId ≠ "") ∧
    ((reconcile x).targetType = "place" → (reconcile x).targetId ≠ "" →
      (reconcile x).placeId ≠ "") ∧
    ((reconcile x).targetType = "review" → (reconcile x).targetId ≠ "" →
      (reconcile x).reviewId ≠ "") ∧
    ((reconcile x).targetType = "comment" → (reconcile x).targetId ≠ "" →
      (reconcile x).commentId ≠ "") := by
  obtain ⟨t, ty, p, pl, r, c⟩ := x
  simp only [reconcile]
  by_cases ht : t = "" <;>
    by_cases h1 : ty = "post" <;> by_cases h2 : ty = "place" <;>
      by_cases h3 : ty = "review" <;> by_cases h4 : ty = "comment" <;>
        by_cases hp : p = "" <;> by_cases hpl : pl = "" <;>
          simp_all <;> split_ifs <;> simp_all

/-- C2 amended (persisted records only): every record the dispatch
persists carries all four type-specific ids as present strings, equal to
the reconciled ids, and the typed id named by `targetType` is non-empty
whenever `targetId` is; but several typed ids may be non-empty at once,
so "exactly one non-empty, all others empty" does not hold — and the
SENT payload is excluded from the consistency altogether, because the
caller's raw keys are spread last over the reconciled values there (see
the sent half of the counterexample). -/
theorem c2_typed_id_consistency (store : Store) (push : PushOutcome)
    (nid rid title body ty : String) (data : NotifData) (u : UserRec)
    (h : store rid = some u) (d : NotificationDoc)
    (hd : d ∈ writtenDocs
      (Part000.sendAndLogNotification store push nid rid title body ty data).effects) :
    (d.targetId = (reconcileData data).targetId ∧
      d.targetType = (reconcileData data).targetType ∧
      d.postId = (reconcileData data).postId ∧
      d.placeId = (reconcileData data).placeId ∧
      d.reviewId = (reconcileData data).reviewId ∧
      d.commentId = (reconcileData data).commentId) ∧
    (d.targetType = "post" → d.targetId ≠ "" → d.postId ≠ "") ∧
    (d.targetType = "place" → d.targetId ≠ "" → d.placeId ≠ "") ∧
    (d.targetType = "review" → d.targetId ≠ "" → d.reviewId ≠ "") ∧
    (d.targetType = "comment" → d.targetId ≠ "" → d.commentId ≠ "") := by
  simp [Part000.sendAndLogNotification, h, writtenDocs] at hd
  subst hd
  exact ⟨⟨rfl, rfl, rfl, rfl, rfl, rfl⟩,
    (reconcile_type_consistent _).1,
    (reconcile_type_consistent _).2.1,
    (reconcile_type_consistent _).2.2.1,
    (reconcile_type_consistent _).2.2.2⟩

/-- The data of the C2 witness call: the fields the new-comment rule
passes for `cComment`. -/
def c2wData : NotifData :=
  { senderId := some "u1", senderName := some "N", senderAvatar := some ""
    targetId := some "r1", targetType := some "review"
    placeId := some "pl1", reviewId := some "r1", commentId := some "c1" }

/-- The record persisted by the C2 witness call. -/
def c2wDoc : NotificationDoc :=
  (writtenDocs (Part000.sendAndLogNotification cStore (.success "m") "n1"
    "u2" "New Comment" "B" "new_comment" c2wData).effects).headI

/-- C2 amended witness: the record persisted for the concrete
new-comment data satisfies the consistency properties. -/
theorem c2_witness :
    (c2wDoc.targetId = (reconcileData c2wData).targetId ∧
      c2wDoc.targetType = (reconcileData c2wData).targetType ∧
      c2wDoc.postId = (reconcileData c2wData).postId ∧
      c2wDoc.placeId = (reconcileData c2wData).placeId ∧
      c2wDoc.reviewId = (reconcileData c2wData).reviewId ∧
      c2wDoc.commentId = (reconcileData c2wData).commentId) ∧
    (c2wDoc.targetType = "post" → c2wDoc.targetId ≠ "" → c2wDoc.postId ≠ "") ∧
    (c2wDoc.targetType = "place" → c2wDoc.targetId ≠ "" → c2wDoc.placeId ≠ "") ∧
    (c2wDoc.targetType = "review" → c2wDoc.targetId ≠ "" → c2wDoc.reviewId ≠ "") ∧
    (c2wDoc.targetType = "comment" → c2wDoc.targetId ≠ "" → c2wDoc.commentId ≠ "") :=
  c2_typed_id_consistency cStore (.success "m") "n1" "u2" "New Comment" "B"
    "new_comment" c2wData tokUser (by decide) c2wDoc (by decide)

/-- C4: none of the seven classification rules produces an intent when
the acting user's id equals the computed recipient's id — the new-review
rule (owner reviews own place), both new-comment rules, the reply rule,
both like rules (where the actor is the detected liker), and the
new-follower rule (where the actor is the detected follower). -/
theorem c4_no_self_notification :
    (∀ rid rv, rv.userId = rv.placeOwnerId →
      Part000.newReviewRule rid rv = none) ∧
    (∀ cid c rv, c.userId = rv.userId →
      Part000.newCommentOnReviewRule cid c (some rv) = none) ∧
    (∀ cid pid c p, c.userId = p.userId →
      Part000.newCommentOnPostRule cid pid c (some p) = none) ∧
    (∀ cid c par, c.userId = par.userId →
      Part000.replyRule cid c (some par) = none) ∧
    (∀ store rid rv old,
      rv.likes.find? (fun l => !(old.contains l)) = some rv.userId →
      Part000.reviewLikedRule store rid rv old = none) ∧
    (∀ store pid p old,
      p.likedBy.find? (fun l => !(old.contains l)) = some p.userId →
      Part000.postLikedRule store pid p old = none) ∧
    (∀ store uid u cnt, u.followers.getLast? = some uid →
      (Part000.newFollowerStep store uid u cnt).1 = none) := by
  refine ⟨fun rid rv h => ?_, fun cid c rv h => ?_, fun cid pid c p h => ?_,
    fun cid c par h => ?_, fun store rid rv old h => ?_,
    fun store pid p old h => ?_, fun store uid u cnt h => ?_⟩
  · simp [Part000.newReviewRule, h]
  · simp [Part000.newCommentOnReviewRule, h]
  · simp [Part000.newCommentOnPostRule, h]
  · simp [Part000.replyRule, h]
  · simp only [Part000.reviewLikedRule]
    split
    · rw [h]; simp
    · rfl
  · simp only [Part000.postLikedRule]
    split
    · rw [h]; simp
    · rfl
  · simp [Part000.newFollowerStep, h]

/-- C4 witness: each of the seven rules at a concrete self-action. -/
theorem c4_witness :
    Part000.newReviewRule "r1" { userId := "u1", placeOwnerId := "u1" } = none ∧
    Part000.newCommentOnReviewRule "c1"
      { userId := "u1", parentType := "review", parentId := "r1" }
      (some { userId := "u1" }) = none ∧
    Part000.newCommentOnPostRule "c1" "p1" { userId := "u1" }
      (some { userId := "u1" }) = none ∧
    Part000.replyRule "c1" { userId := "u1", parentCommentId := "pc1" }
      (some { userId := "u1" }) = none ∧
    Part000.reviewLikedRule emptyStore "r1" { userId := "u1", likes := ["u1"] }
      [] = none ∧
    Part000.postLikedRule emptyStore "p1" { userId := "u1", likedBy := ["u1"] }
      [] = none ∧
    (Part000.newFollowerStep emptyStore "u1" { followers := ["u1"] } 0).1 = none :=
  ⟨c4_no_self_notification.1 "r1" _ rfl,
   c4_no_self_notification.2.1 "c1" _ _ rfl,
   c4_no_self_notification.2.2.1 "c1" "p1" _ _ rfl,
   c4_no_self_notification.2.2.2.1 "c1" _ _ rfl,
   c4_no_self_notification.2.2.2.2.1 emptyStore "r1" _ _ (by decide),
   c4_no_self_notification.2.2.2.2.2.1 emptyStore "p1" _ _ (by decide),
   c4_no_self_notification.2.2.2.2.2.2 emptyStore "u1" _ _ (by decide)⟩

/-- A store answering every id with a user named Bob (liker/follower
lookups in the C6 scenarios). -/
def fStore : Store := fun _ => some { name := some "Bob" }

/-- The follower list before the C6 counterexample tick. -/
def followersBefore : List String := ["u2"]

/-- The modified user document after the tick: `u3` followed, landing at
the FRONT of the array, so the last element is still the old follower
`u2`. -/
def followerUser : UserRec := { followers := ["u3", "u2"] }

/-- C6 counterexample: the new-follower rule fires (2 followers against
a cached count of 1) but reports `u2` — the LAST element of the after
array — as the new member, although `u2` is already in the before set
(the actual new follower is `u3`).  The claim's membership property
fails for the new-follower rule. -/
theorem c6_counterexample :
    ((Part000.newFollowerStep fStore "u1" followerUser
        followersBefore.length).1.map (fun i => i.data.senderId)) =
      some (some "u2") ∧
    "u2" ∈ followersBefore := by decide

/-- C6 amended: for the review-likes and post-likes rules the reported
new member is indeed an element of the after set absent from the before
set (the code searches `after` for a member `before` does not contain);
the new-follower rule instead reports the last element of the after
array, which need not be absent from the before set since only a count
is cached. -/
theorem c6_new_member_detection :
    (∀ store rid rv old i, Part000.reviewLikedRule store rid rv old = some i →
      ∃ l, i.data.senderId = some l ∧ l ∈ rv.likes ∧ l ∉ old) ∧
    (∀ store pid p old i, Part000.postLikedRule store pid p old = some i →
      ∃ l, i.data.senderId = some l ∧ l ∈ p.likedBy ∧ l ∉ old) ∧
    (∀ store uid u cnt i, (Part000.newFollowerStep store uid u cnt).1 = some i →
      i.data.senderId = u.followers.getLast?) := by
  refine ⟨fun store rid rv old i h => ?_, fun store pid p old i h => ?_,
    fun store uid u cnt i h => ?_⟩
  · simp only [Part000.reviewLikedRule] at h
    by_cases hlen : old.length < rv.likes.length
    · rw [if_pos hlen] at h
      cases hfind : rv.likes.find? (fun l => !(old.contains l)) with
      | none => simp only [hfind] at h; exact Option.noConfusion h
      | some likerId =>
        simp only [hfind] at h
        by_cases hg : likerId ≠ "" ∧ likerId ≠ rv.userId
        · rw [if_pos hg] at h
          injection h with h'
          subst h'
          refine ⟨likerId, rfl, List.mem_of_find?_eq_some hfind, ?_⟩
          simpa using List.find?_some hfind
        · rw [if_neg hg] at h; cases h
    · rw [if_neg hlen] at h; cases h
  · simp only [Part000.postLikedRule] at h
    by_cases hlen : old.length < p.likedBy.length
    · rw [if_pos hlen] at h
      cases hfind : p.likedBy.find? (fun l => !(old.contains l)) with
      | none => simp only [hfind] at h; exact Option.noConfusion h
      | some likerId =>
        simp only [hfind] at h
        by_cases hg : likerId ≠ "" ∧ likerId ≠ p.userId
        · rw [if_pos hg] at h
          injection h with h'
          subst h'
          refine ⟨likerId, rfl, List.mem_of_find?_eq_some hfind, ?_⟩
          simpa using List.find?_some hfind
        · rw [if_neg hg] at h; cases h
    · rw [if_neg hlen] at h; cases h
  · simp only [Part000.newFollowerStep] at h
    by_cases hlen : cnt < u.followers.length
    · rw [if_pos hlen] at h
      cases hlast : u.followers.getLast? with
      | none => simp only [hlast] at h; exact Option.noConfusion h
      | some f =>
        simp only [hlast] at h
        by_cases hg : f ≠ "" ∧ f ≠ uid
        · rw [if_pos hg] at h
          injection h with h'
          subst h'
          rfl
        · rw [if_neg hg] at h; cases h
    · rw [if_neg hlen] at h; cases h

/-- The intent produced in the C6 witness like scenario. -/
def c6wLikeIntent : Part000.Intent :=
  (Part000.reviewLikedRule fStore "r1" { userId := "u1", likes := ["u9"] }
    []).getD default

/-- The intent produced in the C6 witness follower scenario. -/
def c6wFollowIntent : Part000.Intent :=
  ((Part000.newFollowerStep fStore "u1" followerUser
    followersBefore.length).1).getD default

/-- C6 amended witness: a concrete like detection and the concrete
follower report. -/
theorem c6_witness :
    (∃ l, c6wLikeIntent.data.senderId = some l ∧
      l ∈ (Review.likes { userId := "u1", likes := ["u9"] }) ∧
      l ∉ ([] : List String)) ∧
    c6wFollowIntent.data.senderId = followerUser.followers.getLast? :=
  ⟨c6_new_member_detection.1 fStore "r1" { userId := "u1", likes := ["u9"] }
      [] c6wLikeIntent (by decide),
   c6_new_member_detection.2.2 fStore "u1" followerUser
      followersBefore.length c6wFollowIntent (by decide)⟩

/-- The C7 counterexample dispatch: recipient `u1` has a registered
token and the push attempt fails with the
`messaging/registration-token-not-registered` kind. -/
def c7Result : Part000.SendResult :=
  Part000.sendAndLogNotification oneUserStore (.failure true) "n1" "u1"
    "T" "B" "test" {}

/-- C7 counterexample: in the active server (part_000) a push failure of
the token-no-longer-valid kind does NOT clear the stored token — the
catch at lines 152-154 only logs — while the dispatch does continue to
persistence and success.  The claimed clearing does not happen. -/
theorem c7_counterexample :
    c7Result.effects.any StoreEffect.isClearToken = false ∧
    c7Result.ok = true ∧
    (writtenDocs c7Result.effects).length = 1 := by decide

/-- C7 amended: the part_000 dispatch never clears a stored token under
any outcome; the token-clearing behaviour exists only in the index.js
variant, whose catch deletes the token on exactly this error kind — but
there the dispatch returns failure without persisting any record. -/
theorem c7_token_clearing :
    (∀ store push nid rid title body ty data,
      (Part000.sendAndLogNotification store push nid rid title body ty
        data).effects.any StoreEffect.isClearToken = false) ∧
    (∀ store nd uid tok, nd.toUserId = some uid →
      ((store uid).bind UserRec.fcmToken) = some tok → tok ≠ "" →
      IndexJs.sendAndLogNotification store (.failure true) nd =
        (false, [StoreEffect.clearFcmToken uid])) := by
  constructor
  · intro store push nid rid title body ty data
    cases hm : store rid <;>
      simp [Part000.sendAndLogNotification, hm, StoreEffect.isClearToken]
  · intro store nd uid tok h1 h2 h3
    simp [IndexJs.sendAndLogNotification, h1, h2, orEmpty, h3]

/-- C7 amended witness: the part_000 dispatch of `c7Result` performs no
clear; the index.js dispatch at the same scenario clears and drops the
record. -/
theorem c7_witness :
    (Part000.sendAndLogNotification oneUserStore (.failure true) "n1" "u1"
      "T" "B" "test" {}).effects.any StoreEffect.isClearToken = false ∧
    IndexJs.sendAndLogNotification oneUserStore (.failure true)
      { toUserId := some "u1" } = (false, [StoreEffect.clearFcmToken "u1"]) :=
  ⟨c7_token_clearing.1 oneUserStore (.failure true) "n1" "u1" "T" "B" "test" {},
   c7_token_clearing.2 oneUserStore { toUserId := some "u1" } "u1" "tok"
    rfl (by decide) (by decide)⟩

/-- The `/send-notification` request of the first C9 scenario: no
`targetId` in the body, a `postId` in `extraData`. -/
def c9Req : Part000.SendNotificationRequest :=
  { toUserId := some "u1", type := some "like", title := some "T",
    body := some "B", extraData := { postId := some "p1" } }

/-- The `/send-notification` request of the second C9 scenario:
`targetId`/`targetType` in the body and a present but EMPTY `postId`
in `extraData`. -/
def c9Req2 : Part000.SendNotificationRequest :=
  { toUserId := some "u1", type := some "like", title := some "T",
    body := some "B", targetId := some "p1", targetType := some "post",
    extraData := { postId := some "" } }

/-- C9: the caller's `data` object is spread last into the push payload,
so for EACH of the six keys `targetId`, `targetType`, `postId`,
`placeId`, `reviewId`, `commentId`, a present raw value (even the empty
string) overwrites the reconciled value in the SENT payload, while the
PERSISTED record keeps all six reconciled values.  Concretely: a
`/send-notification` request with no `targetId` and
`extraData.postId = "p1"` sends `targetId = ""` and `targetType = ""`
(the endpoint always materialises both as present keys) while the
record persists the back-filled `targetId = "p1"`, `targetType =
"post"`; and a request with `targetId:'p1', targetType:'post',
extraData:{postId:''}` sends `postId = ""` while the record persists the
forward-filled `postId = "p1"` — sent payload and record disagree. -/
theorem c9_payload_override :
    (∀ store push nid rid title body ty data u tok,
      store rid = some u → u.fcmToken = some tok → tok ≠ "" →
      (∀ v, data.targetId = some v →
        ((Part000.sendAndLogNotification store push nid rid title body ty
          data).sent.map Part000.PushPayload.targetId) = some v) ∧
      (∀ v, data.targetType = some v →
        ((Part000.sendAndLogNotification store push nid rid title body ty
          data).sent.map Part000.PushPayload.targetType) = some v) ∧
      (∀ v, data.postId = some v →
        ((Part000.sendAndLogNotification store push nid rid title body ty
          data).sent.map Part000.PushPayload.postId) = some v) ∧
      (∀ v, data.placeId = some v →
        ((Part000.sendAndLogNotification store push nid rid title body ty
          data).sent.map Part000.PushPayload.placeId) = some v) ∧
      (∀ v, data.reviewId = some v →
        ((Part000.sendAndLogNotification store push nid rid title body ty
          data).sent.map Part000.PushPayload.reviewId) = some v) ∧
      (∀ v, data.commentId = some v →
        ((Part000.sendAndLogNotification store push nid rid title body ty
          data).sent.map Part000.PushPayload.commentId) = some v) ∧
      ((writtenDocs (Part000.sendAndLogNotification store push nid rid title
          body ty data).effects).map
        (fun d => (d.targetId, d.targetType, d.postId, d.placeId,
          d.reviewId, d.commentId)) =
        [((reconcileData data).targetId, (reconcileData data).targetType,
          (reconcileData data).postId, (reconcileData data).placeId,
          (reconcileData data).reviewId, (reconcileData data).commentId)])) ∧
    (((Part000.sendAndLogNotification oneUserStore (.success "m") "n1" "u1"
        "T" "B" "like" (Part000.sendNotificationData c9Req)).sent.map
        (fun p => (p.targetId, p.targetType))) = some ("", "") ∧
      ((writtenDocs (Part000.sendAndLogNotification oneUserStore (.success "m")
        "n1" "u1" "T" "B" "like" (Part000.sendNotificationData c9Req)).effects).map
        (fun d => (d.targetId, d.targetType))) = [("p1", "post")] ∧
      ((Part000.sendAndLogNotification oneUserStore (.success "m") "n1" "u1"
        "T" "B" "like" (Part000.sendNotificationData c9Req2)).sent.map
        Part000.PushPayload.postId) = some "" ∧
      ((writtenDocs (Part000.sendAndLogNotification oneUserStore (.success "m")
        "n1" "u1" "T" "B" "like" (Part000.sendNotificationData c9Req2)).effects).map
        NotificationDoc.postId) = ["p1"]) := by
  constructor
  · intro store push nid rid title body ty data u tok h1 h2 h3
    refine ⟨?_, ?_, ?_, ?_, ?_, ?_, ?_⟩
    · intro v hv
      simp [Part000.sendAndLogNotification, h1, h2, h3, hv, orEmpty, ovr]
    · intro v hv
      simp [Part000.sendAndLogNotification, h1, h2, h3, hv, orEmpty, ovr]
    · intro v hv
      simp [Part000.sendAndLogNotification, h1, h2, h3, hv, orEmpty, ovr]
    · intro v hv
      simp [Part000.sendAndLogNotification, h1, h2, h3, hv, orEmpty, ovr]
    · intro v hv
      simp [Part000.sendAndLogNotification, h1, h2, h3, hv, orEmpty, ovr]
    · intro v hv
      simp [Part000.sendAndLogNotification, h1, h2, h3, hv, orEmpty, ovr]
    · simp [Part000.sendAndLogNotification, h1, h2, h3, orEmpty, writtenDocs]
  · exact ⟨by decide, by decide, by decide, by decide⟩

/-- The data of the C9 witness call: all six override keys present. -/
def c9wData : NotifData :=
  { targetId := some "a", targetType := some "b", postId := some "c",
    placeId := some "d", reviewId := some "e", commentId := some "f" }

/-- C9 witness: with every one of the six keys present in the raw data,
each reaches the sent payload unchanged, and the persisted record keeps
the six reconciled values. -/
theorem c9_witness :
    ((Part000.sendAndLogNotification oneUserStore (.success "m") "n1" "u1"
        "T" "B" "like" c9wData).sent.map Part000.PushPayload.targetId) =
      some "a" ∧
    ((Part000.sendAndLogNotification oneUserStore (.success "m") "n1" "u1"
        "T" "B" "like" c9wData).sent.map Part000.PushPayload.targetType) =
      some "b" ∧
    ((Part000.sendAndLogNotification oneUserStore (.success "m") "n1" "u1"
        "T" "B" "like" c9wData).sent.map Part000.PushPayload.postId) =
      some "c" ∧
    ((Part000.sendAndLogNotification oneUserStore (.success "m") "n1" "u1"
        "T" "B" "like" c9wData).sent.map Part000.PushPayload.placeId) =
      some "d" ∧
    ((Part000.sendAndLogNotification oneUserStore (.success "m") "n1" "u1"
        "T" "B" "like" c9wData).sent.map Part000.PushPayload.reviewId) =
      some "e" ∧
    ((Part000.sendAndLogNotification oneUserStore (.success "m") "n1" "u1"
        "T" "B" "like" c9wData).sent.map Part000.PushPayload.commentId) =
      some "f" ∧
    ((writtenDocs (Part000.sendAndLogNotification oneUserStore (.success "m")
        "n1" "u1" "T" "B" "like" c9wData).effects).map
      (fun d => (d.targetId, d.targetType, d.postId, d.placeId,
        d.reviewId, d.commentId)) =
      [((reconcileData c9wData).targetId, (reconcileData c9wData).targetType,
        (reconcileData c9wData).postId, (reconcileData c9wData).placeId,
        (reconcileData c9wData).reviewId, (reconcileData c9wData).commentId)]) := by
  have h := c9_payload_override.1 oneUserStore (.success "m") "n1" "u1"
    "T" "B" "like" c9wData tokUser "tok" (by decide) rfl (by decide)
  exact ⟨h.1 "a" rfl, h.2.1 "b" rfl, h.2.2.1 "c" rfl, h.2.2.2.1 "d" rfl,
    h.2.2.2.2.1 "e" rfl, h.2.2.2.2.2.1 "f" rfl, h.2.2.2.2.2.2⟩

/-- C8: identifier reconciliation is idempotent — re-running the
defaulting, forward-fill and back-fill on its own output changes
nothing. -/
theorem c8_reconcile_idempotent (x : RawIds) :
    reconcile (reconcile x) = reconcile x := by
  obtain ⟨t, ty, p, pl, r, c⟩ := x
  simp only [reconcile]
  by_cases ht : t = "" <;>
    by_cases h1 : ty = "post" <;> by_cases h2 : ty = "place" <;>
      by_cases h3 : ty = "review" <;> by_cases h4 : ty = "comment" <;>
        by_cases hp : p = "" <;> by_cases hpl : pl = "" <;>
          simp_all <;> split_ifs <;> simp_all
